import Mathlib

/-!
# goose: configuration resolution (`dbconf.go`)

A shallow embedding of `dbconf.go`: the driver registry `NewDBDriver`, the
validity check `DBDriver.IsValid` and the resolver `newDBConfDetails`.

Go's `(value, error)` results are `Except` values. The functions that
`dbconf.go` calls but does not define (the yaml reader, `os.ExpandEnv`,
`pq.ParseURL`, `DialectByName`) are taken as parameters, gathered in
`Externals`.
-/

namespace Goose

/-! ## Data model -/

/-- Modelled from the spec: the `SqlDialect` interface and the types implementing it
are declared outside `dbconf.go`. A non-nil interface value is identified by the type
that implements it: `PostgresDialect`, `MySqlDialect`, or some further
implementation (`Other`, named by a tag). The nil interface value is `none` in
`Option SqlDialect`. -/
inductive SqlDialect where
  | PostgresDialect : SqlDialect
  | MySqlDialect : SqlDialect
  | Other (tag : String) : SqlDialect
  deriving DecidableEq, Repr

/-- The struct `DBDriver` (dbconf.go, lines 19-24). -/
structure DBDriver where
  Name : String
  OpenStr : String
  Import : String
  Dialect : Option SqlDialect
  deriving DecidableEq, Repr

/-- The struct `DBConf` (dbconf.go, lines 26-30). -/
structure DBConf where
  MigrationsDir : String
  Env : String
  Driver : DBDriver
  deriving DecidableEq, Repr

/-- A non-nil Go `error` returned by `newDBConfDetails`: either an error value handed
back by the yaml library (`yaml.ReadFile`, `File.Get`) and passed on unchanged, or the
error built at line 78, `errors.New(fmt.Sprintf("Invalid DBConf: %v", d))`, which is
recorded with the driver `d` it prints. -/
inductive Error where
  | yaml (msg : String) : Error
  | invalidDBConf (d : DBDriver) : Error
  deriving DecidableEq, Repr

/-- A parsed yaml document (`*yaml.File`), seen through its only method used here:
`Get path`, which gives the scalar at `path` or an error. -/
structure File where
  Get : String → Except String String

/-- The functions `dbconf.go` calls and does not define. -/
structure Externals where
  /-- The function `yaml.ReadFile`: load and parse the file at a path. -/
  ReadFile : String → Except String File
  /-- The function `os.ExpandEnv`: shell-style expansion against the process environment. -/
  ExpandEnv : String → String
  /-- The function `pq.ParseURL`: postgres URL to DSN. -/
  ParseURL : String → Except String String
  /-- The function `DialectByName`: dialect name to dialect, nil when unknown. -/
  DialectByName : String → Option SqlDialect

/-! ## Operations -/

/-- The function `NewDBDriver` (dbconf.go, lines 91-109). -/
def NewDBDriver (name openStr : String) : DBDriver :=
  let d : DBDriver := { Name := name, OpenStr := openStr, Import := "", Dialect := none }
  if name = "postgres" then
    { d with Import := "github.com/lib/pq", Dialect := some SqlDialect.PostgresDialect }
  else if name = "mymysql" then
    { d with Import := "github.com/ziutek/mymysql/godrv", Dialect := some SqlDialect.MySqlDialect }
  else
    d

/-- The method `DBDriver.IsValid` (dbconf.go, lines 112-114):
`len(drv.Import) > 0 && drv.Dialect != nil`. Go's `len` of a string is its length in
bytes. -/
def DBDriver.IsValid (drv : DBDriver) : Bool :=
  decide (drv.Import.utf8ByteSize > 0) && drv.Dialect.isSome

/-- The function `newDBConfDetails` (dbconf.go, lines 38-86). -/
def newDBConfDetails (x : Externals) (cfgFile migrationsDir env : String) :
    Except Error DBConf :=
  match x.ReadFile cfgFile with
  | .error err => .error (.yaml err)
  | .ok f =>
    match f.Get (env ++ ".driver") with
    | .error err => .error (.yaml err)
    | .ok drv =>
      match f.Get (env ++ ".open") with
      | .error err => .error (.yaml err)
      | .ok openRaw =>
        let openStr := x.ExpandEnv openRaw
        -- Automatically parse postgres urls
        let openStr :=
          if drv = "postgres" then
            match x.ParseURL openStr with
            | .ok parsedURL => if parsedURL ≠ "" then parsedURL else openStr
            | .error _ => openStr
          else openStr
        let d := NewDBDriver drv openStr
        -- allow the configuration to override the Import for this driver
        let d :=
          match f.Get (env ++ ".import") with
          | .ok imprt => { d with Import := imprt }
          | .error _ => d
        -- allow the configuration to override the Dialect for this driver
        let d :=
          match f.Get (env ++ ".dialect") with
          | .ok dialect => { d with Dialect := x.DialectByName dialect }
          | .error _ => d
        if !d.IsValid then
          .error (.invalidDBConf d)
        else
          .ok { MigrationsDir := migrationsDir, Env := env, Driver := d }

/-! ## The resolved fields, as the specification words them -/

/-- The connection string after steps 2 and 3 of the resolver: the `open` value with
environment variables expanded, replaced by its normalized form when the driver is
"postgres" and the URL parser succeeds with a non-empty result. -/
def resolvedOpen (x : Externals) (drv openRaw : String) : String :=
  if drv = "postgres" then
    match x.ParseURL (x.ExpandEnv openRaw) with
    | .ok parsedURL => if parsedURL = "" then x.ExpandEnv openRaw else parsedURL
    | .error _ => x.ExpandEnv openRaw
  else x.ExpandEnv openRaw

/-- The import path after the registry lookup and the `import` override: the value of
the `import` field when the field is present, the registry's import for the driver
name otherwise. -/
def importAfterOverrides (f : File) (env drv : String) : String :=
  match f.Get (env ++ ".import") with
  | .ok imprt => imprt
  | .error _ => (NewDBDriver drv "").Import

/-- The dialect after the registry lookup and the `dialect` override: the dialect
looked up from the `dialect` field when the field is present, the registry's dialect
for the driver name otherwise. -/
def dialectAfterOverrides (x : Externals) (f : File) (env drv : String) :
    Option SqlDialect :=
  match f.Get (env ++ ".dialect") with
  | .ok dialect => x.DialectByName dialect
  | .error _ => (NewDBDriver drv "").Dialect

/-! ## Environment-variable expansion -/

/-- Modelled from the spec: `os.ExpandEnv` belongs to the Go standard library and is
not defined in `dbconf.go`. The characters that name a shell special variable on
their own (`$*`, `$#`, `$$`, `$@`, `$!`, `$?`, `$-`, `$0` to `$9`). -/
def isShellSpecialVar (c : Char) : Bool :=
  c = '*' || c = '#' || c = '$' || c = '@' || c = '!' || c = '?' || c = '-' || c.isDigit

/-- Modelled from the spec: `os.ExpandEnv` belongs to the Go standard library and is
not defined in `dbconf.go`. The characters of a variable name `VAR` in `$VAR`: ASCII
letters, digits and the underscore. -/
def isAlphaNum (c : Char) : Bool :=
  c = '_' || c.isDigit || c.isAlpha

/-- Modelled from the spec: `os.ExpandEnv` belongs to the Go standard library and is
not defined in `dbconf.go`. The variable name at the head of `s`, the text after a
`$`, with the number of characters it takes up: `{VAR}` gives `VAR`, a special
character gives itself, otherwise the longest run of name characters. A `{` with no
closing brace, or `{}`, is bad syntax: no name, and the characters are still used up. -/
def getShellName (s : List Char) : List Char × Nat :=
  match s with
  | [] => ([], 0)
  | c :: rest =>
    if c = '{' then
      let name := rest.takeWhile (fun b => b != '}')
      if name.length = rest.length then ([], 1)
      else if name = [] then ([], 2)
      else (name, name.length + 2)
    else if isShellSpecialVar c then ([c], 1)
    else
      let name := (c :: rest).takeWhile isAlphaNum
      (name, name.length)

/-- Modelled from the spec: `os.ExpandEnv` belongs to the Go standard library and is
not defined in `dbconf.go`. One left-to-right pass over `s` that replaces `$VAR` and
`${VAR}` by `mapping VAR`; a `$` that ends the string or is followed by no name stays,
bad syntax is dropped. Each step uses up at least one character, so a fuel of the
length of `s` reaches its end. -/
def expandFuel (mapping : String → String) : Nat → List Char → List Char
  | 0, s => s
  | _ + 1, [] => []
  | n + 1, c :: rest =>
    if c = '$' ∧ rest ≠ [] then
      let nw := getShellName rest
      let out :=
        if nw.1 = [] then (if nw.2 > 0 then [] else ['$'])
        else (mapping (String.mk nw.1)).data
      out ++ expandFuel mapping n (rest.drop nw.2)
    else c :: expandFuel mapping n rest

/-- Modelled from the spec: `os.ExpandEnv` belongs to the Go standard library and is
not defined in `dbconf.go`. Shell-style substitution of `$VAR` and `${VAR}` in `s` by
the values `mapping` gives (Go's `os.Expand`). -/
def Expand (s : String) (mapping : String → String) : String :=
  String.mk (expandFuel mapping s.data.length s.data)

/-- Modelled from the spec: `os.ExpandEnv` belongs to the Go standard library and is
not defined in `dbconf.go`. Substitution against the process environment `getenv`
(Go's `os.Getenv`, which gives the empty string for a variable that is not set). -/
def ExpandEnv (getenv : String → String) (s : String) : String :=
  Expand s getenv

/-! ## Sample inputs -/

/-- A yaml document given by its scalar paths: `Get` finds the first entry for the
path and fails when there is none. -/
def fileOfList (kvs : List (String × String)) : File :=
  { Get := fun path =>
      match kvs.lookup path with
      | some v => .ok v
      | none => .error ("yaml: " ++ path ++ ": not found") }

/-- A sample name-to-dialect lookup: two known names, nil otherwise. -/
def sampleDialectByName (d : String) : Option SqlDialect :=
  if d = "postgres" then some SqlDialect.PostgresDialect
  else if d = "mysql" then some SqlDialect.MySqlDialect
  else none

/-- Sample externals: every path reads as the document `kvs`, nothing is expanded and
no string parses as a postgres URL. -/
def sampleExternals (kvs : List (String × String)) : Externals :=
  { ReadFile := fun _ => .ok (fileOfList kvs)
    ExpandEnv := fun s => s
    ParseURL := fun _ => .error "invalid connection protocol"
    DialectByName := sampleDialectByName }

/-- A sample process environment: `DBHOST` and `PGPASS` are set, nothing else is. -/
def sampleGetenv (name : String) : String :=
  if name = "DBHOST" then "prod-db"
  else if name = "PGPASS" then "a$b"
  else ""

/-- Sample externals with expansion: every path reads as the document `kvs`, the
`open` value is expanded against `getenv`, and the postgres URL parser knows the
URLs listed in `urls` with their normalized form and rejects every other string. -/
def sampleExternalsWith (kvs : List (String × String)) (getenv : String → String)
    (urls : List (String × String)) : Externals :=
  { ReadFile := fun _ => .ok (fileOfList kvs)
    ExpandEnv := ExpandEnv getenv
    ParseURL := fun s =>
      match urls.lookup s with
      | some dsn => .ok dsn
      | none => .error "invalid connection protocol"
    DialectByName := sampleDialectByName }

/-- Sample externals over two documents: the path "db.yml" reads as the document
`kvs`, every other path as the document `kvs2`. -/
def sampleExternalsTwo (kvs kvs2 : List (String × String)) (getenv : String → String)
    (urls : List (String × String)) : Externals :=
  { sampleExternalsWith kvs getenv urls with
    ReadFile := fun path =>
      if path = "db.yml" then .ok (fileOfList kvs) else .ok (fileOfList kvs2) }

/-! ## Auxiliary lemmas -/

theorem utf8ByteSize_go_pos (c : Char) (cs : List Char) :
    0 < String.utf8ByteSize.go (c :: cs) := by
  simp only [String.utf8ByteSize.go]
  have := Char.utf8Size_pos c
  omega

/-- A string has a positive byte length exactly when it is not the empty string. -/
theorem utf8ByteSize_pos_iff (s : String) : 0 < s.utf8ByteSize ↔ s ≠ "" := by
  cases s with
  | mk l =>
    cases l with
    | nil => simp [String.utf8ByteSize, String.utf8ByteSize.go]
    | cons c cs =>
      constructor
      · intro _ h
        have := congrArg String.data h
        simp at this
      · intro _
        exact utf8ByteSize_go_pos c cs

/-- The validity check, as a proposition on the two fields it reads. -/
theorem isValid_iff (d : DBDriver) :
    d.IsValid = true ↔ d.Import ≠ "" ∧ d.Dialect ≠ none := by
  unfold DBDriver.IsValid
  rw [Bool.and_eq_true, decide_eq_true_iff, gt_iff_lt, utf8ByteSize_pos_iff,
    Option.isSome_iff_ne_none]

/-- The registry's import and dialect do not depend on the connection string. -/
theorem NewDBDriver_import_dialect (name o o' : String) :
    (NewDBDriver name o).Import = (NewDBDriver name o').Import ∧
      (NewDBDriver name o).Dialect = (NewDBDriver name o').Dialect := by
  unfold NewDBDriver
  by_cases h1 : name = "postgres"
  · simp [h1]
  · by_cases h2 : name = "mymysql"
    · simp [h2]
    · simp [h1, h2]

/-- The registry's name and connection string are the arguments. -/
theorem NewDBDriver_name_open (name o : String) :
    (NewDBDriver name o).Name = name ∧ (NewDBDriver name o).OpenStr = o := by
  unfold NewDBDriver
  by_cases h1 : name = "postgres"
  · simp [h1]
  · by_cases h2 : name = "mymysql"
    · simp [h2]
    · simp [h1, h2]

/-- The registry entry of a name outside the table has no import and no dialect. -/
theorem NewDBDriver_unknown (name o : String) (h1 : name ≠ "postgres")
    (h2 : name ≠ "mymysql") :
    (NewDBDriver name o).Import = "" ∧ (NewDBDriver name o).Dialect = none := by
  simp [NewDBDriver, h1, h2]

/-- The registry entry of a name in the table has an import and a dialect. -/
theorem NewDBDriver_known (name o : String) (h : name = "postgres" ∨ name = "mymysql") :
    (NewDBDriver name o).Import ≠ "" ∧ (NewDBDriver name o).Dialect ≠ none := by
  rcases h with h | h <;> subst h <;> simp [NewDBDriver]

/-- Once the file is read and both required fields are found, the resolver validates
the driver made of the driver name, the resolved connection string and the import and
dialect left by the overrides, and returns it or reports it. -/
theorem newDBConfDetails_eq (x : Externals) (cfgFile migrationsDir env : String)
    (f : File) (drv openRaw : String)
    (hf : x.ReadFile cfgFile = .ok f)
    (hdrv : f.Get (env ++ ".driver") = .ok drv)
    (hopen : f.Get (env ++ ".open") = .ok openRaw) :
    newDBConfDetails x cfgFile migrationsDir env =
      if (DBDriver.mk drv (resolvedOpen x drv openRaw) (importAfterOverrides f env drv)
            (dialectAfterOverrides x f env drv)).IsValid = true then
        .ok ⟨migrationsDir, env, DBDriver.mk drv (resolvedOpen x drv openRaw)
          (importAfterOverrides f env drv) (dialectAfterOverrides x f env drv)⟩
      else
        .error (.invalidDBConf (DBDriver.mk drv (resolvedOpen x drv openRaw)
          (importAfterOverrides f env drv) (dialectAfterOverrides x f env drv))) := by
  have hopen' : (if drv = "postgres" then
        match x.ParseURL (x.ExpandEnv openRaw) with
        | .ok parsedURL => if parsedURL ≠ "" then parsedURL else x.ExpandEnv openRaw
        | .error _ => x.ExpandEnv openRaw
      else x.ExpandEnv openRaw) = resolvedOpen x drv openRaw := by
    unfold resolvedOpen
    by_cases hp : drv = "postgres"
    · simp only [hp, if_true]
      cases x.ParseURL (x.ExpandEnv openRaw) with
      | error e => rfl
      | ok u => by_cases hu : u = "" <;> simp [hu]
    · simp only [hp, if_false]
  have hno := NewDBDriver_name_open drv (resolvedOpen x drv openRaw)
  have hid := NewDBDriver_import_dialect drv (resolvedOpen x drv openRaw) ""
  have hd : ∀ d : DBDriver, d = DBDriver.mk d.Name d.OpenStr d.Import d.Dialect := fun d => rfl
  unfold newDBConfDetails
  simp only [hf, hdrv, hopen, hopen']
  unfold importAfterOverrides dialectAfterOverrides
  cases hi : f.Get (env ++ ".import") <;> cases hdl : f.Get (env ++ ".dialect") <;>
    simp only [← hid.1, ← hid.2] <;>
    [rw [hd (NewDBDriver drv (resolvedOpen x drv openRaw))];
     rw [hd (NewDBDriver drv (resolvedOpen x drv openRaw))];
     rw [hd (NewDBDriver drv (resolvedOpen x drv openRaw))];
     rw [hd (NewDBDriver drv (resolvedOpen x drv openRaw))]] <;>
    simp only [hno.1, hno.2] <;>
    split <;> rename_i hv <;> simp only [Bool.not_eq_true', Bool.not_eq_false] at hv <;>
    simp [hv]

/-- A failure of either required lookup is returned as it is. -/
theorem newDBConfDetails_missing (x : Externals) (cfgFile migrationsDir env : String)
    (f : File) (hf : x.ReadFile cfgFile = .ok f) :
    (∀ e, f.Get (env ++ ".driver") = .error e →
        newDBConfDetails x cfgFile migrationsDir env = .error (.yaml e)) ∧
      (∀ drv e, f.Get (env ++ ".driver") = .ok drv → f.Get (env ++ ".open") = .error e →
        newDBConfDetails x cfgFile migrationsDir env = .error (.yaml e)) := by
  constructor
  · intro e he
    simp only [newDBConfDetails, hf, he]
  · intro drv e hd he
    simp only [newDBConfDetails, hf, hd, he]

/-! ## Driver registry and validity -/

/-- C1: whenever `newDBConfDetails` returns a `DBConf` (no error), whatever the
configuration source, migrations directory and environment name, the returned driver
passes `IsValid`: its `Import` is non-empty and its `Dialect` is non-nil. -/
theorem newDBConfDetails_ok_isValid (x : Externals) (cfgFile migrationsDir env : String)
    (c : DBConf) (h : newDBConfDetails x cfgFile migrationsDir env = .ok c) :
    c.Driver.IsValid = true ∧ c.Driver.Import ≠ "" ∧ c.Driver.Dialect ≠ none := by
  have key : c.Driver.IsValid = true := by
    cases hf : x.ReadFile cfgFile with
    | error e => simp [newDBConfDetails, hf] at h
    | ok f =>
      cases hd : f.Get (env ++ ".driver") with
      | error e => simp [newDBConfDetails, hf, hd] at h
      | ok drv =>
        cases ho : f.Get (env ++ ".open") with
        | error e => simp [newDBConfDetails, hf, hd, ho] at h
        | ok openRaw =>
          rw [newDBConfDetails_eq x cfgFile migrationsDir env f drv openRaw hf hd ho] at h
          split at h
          · rename_i hv
            injection h with h
            rw [← h]
            exact hv
          · cases h
  exact ⟨key, (isValid_iff c.Driver).1 key⟩

/-- Witness for C1: a postgres section with no override resolves to a valid driver. -/
theorem newDBConfDetails_ok_isValid_witness :
    (DBDriver.mk "postgres" "x" "github.com/lib/pq" (some SqlDialect.PostgresDialect)).IsValid
        = true ∧
      "github.com/lib/pq" ≠ "" ∧ some SqlDialect.PostgresDialect ≠ none :=
  newDBConfDetails_ok_isValid
    (sampleExternals [("test.driver", "postgres"), ("test.open", "x")]) "db.yml" "db" "test"
    ⟨"db", "test", ⟨"postgres", "x", "github.com/lib/pq", some SqlDialect.PostgresDialect⟩⟩ rfl

/-- C2: `NewDBDriver name open` has `Name = name` and `OpenStr = open` for every name
and connection string; for "postgres" its `Import` is "github.com/lib/pq" and its
`Dialect` the Postgres dialect, for "mymysql" its `Import` is
"github.com/ziutek/mymysql/godrv" and its `Dialect` the MySQL dialect. -/
theorem NewDBDriver_registry :
    (∀ name o : String, (NewDBDriver name o).Name = name ∧ (NewDBDriver name o).OpenStr = o) ∧
      (∀ o : String, (NewDBDriver "postgres" o).Import = "github.com/lib/pq" ∧
        (NewDBDriver "postgres" o).Dialect = some SqlDialect.PostgresDialect) ∧
      (∀ o : String, (NewDBDriver "mymysql" o).Import = "github.com/ziutek/mymysql/godrv" ∧
        (NewDBDriver "mymysql" o).Dialect = some SqlDialect.MySqlDialect) := by
  refine ⟨NewDBDriver_name_open, fun o => ?_, fun o => ?_⟩
  · simp [NewDBDriver]
  · simp [NewDBDriver]

/-- C3: for a name other than "postgres" and "mymysql", `NewDBDriver` (a total
function, which has no error result) gives a driver with `Import = ""` and a nil
`Dialect`, so `IsValid` is false on it; and for every name and connection string,
`IsValid (NewDBDriver name open)` holds exactly when the name is "postgres" or
"mymysql". -/
theorem NewDBDriver_isValid_iff (name o : String) :
    (name ≠ "postgres" → name ≠ "mymysql" →
        (NewDBDriver name o).Import = "" ∧ (NewDBDriver name o).Dialect = none ∧
          (NewDBDriver name o).IsValid = false) ∧
      ((NewDBDriver name o).IsValid = true ↔ name = "postgres" ∨ name = "mymysql") := by
  have hunk : name ≠ "postgres" → name ≠ "mymysql" →
      (NewDBDriver name o).Import = "" ∧ (NewDBDriver name o).Dialect = none ∧
        (NewDBDriver name o).IsValid = false := by
    intro h1 h2
    obtain ⟨hi, hd⟩ := NewDBDriver_unknown name o h1 h2
    refine ⟨hi, hd, ?_⟩
    rw [← Bool.not_eq_true, isValid_iff]
    exact fun hv => hv.1 hi
  refine ⟨hunk, ?_, ?_⟩
  · intro hv
    by_contra hn
    rw [not_or] at hn
    rw [(hunk hn.1 hn.2).2.2] at hv
    cases hv
  · intro hk
    exact (isValid_iff _).2 (NewDBDriver_known name o hk)

/-- Witness for C3: "sqlite3" is outside the registry. -/
theorem NewDBDriver_isValid_iff_witness :
    ((NewDBDriver "sqlite3" "db.sqlite").Import = "" ∧
        (NewDBDriver "sqlite3" "db.sqlite").Dialect = none ∧
        (NewDBDriver "sqlite3" "db.sqlite").IsValid = false) ∧
      ("sqlite3" ≠ "postgres" ∧ "sqlite3" ≠ "mymysql") :=
  ⟨(NewDBDriver_isValid_iff "sqlite3" "db.sqlite").1 (by decide) (by decide),
    by decide, by decide⟩

/-- C4: `d.IsValid` is true if and only if `d.Import` is non-empty and `d.Dialect` is
non-nil; `Name` and `OpenStr` play no part: replacing them leaves `IsValid` as it is. -/
theorem IsValid_iff_import_dialect (d : DBDriver) :
    (d.IsValid = true ↔ d.Import ≠ "" ∧ d.Dialect ≠ none) ∧
      ∀ name o : String, ({ d with Name := name, OpenStr := o } : DBDriver).IsValid = d.IsValid :=
  ⟨isValid_iff d, fun _ _ => rfl⟩

/-! ## The resolver: failures -/

/-- C5: for a readable configuration source, if the path `<env>.driver` is missing or
the path `<env>.open` is missing, `newDBConfDetails` returns no `DBConf`; the error is
the one the failed lookup returned, not the "Invalid DBConf" error. The `import` and
`dialect` fields of the source are unconstrained. -/
theorem newDBConfDetails_required_missing (x : Externals)
    (cfgFile migrationsDir env : String) (f : File)
    (hf : x.ReadFile cfgFile = .ok f)
    (hmiss : (∃ e, f.Get (env ++ ".driver") = .error e) ∨
      (∃ e, f.Get (env ++ ".open") = .error e)) :
    (∃ e, newDBConfDetails x cfgFile migrationsDir env = .error (.yaml e) ∧
        (f.Get (env ++ ".driver") = .error e ∨ f.Get (env ++ ".open") = .error e)) ∧
      (∀ c, newDBConfDetails x cfgFile migrationsDir env ≠ .ok c) ∧
      (∀ d, newDBConfDetails x cfgFile migrationsDir env ≠ .error (.invalidDBConf d)) := by
  have hm := newDBConfDetails_missing x cfgFile migrationsDir env f hf
  have key : ∃ e, newDBConfDetails x cfgFile migrationsDir env = .error (.yaml e) ∧
      (f.Get (env ++ ".driver") = .error e ∨ f.Get (env ++ ".open") = .error e) := by
    cases hd : f.Get (env ++ ".driver") with
    | error e => exact ⟨e, hm.1 e hd, Or.inl rfl⟩
    | ok drv =>
      rcases hmiss with ⟨e, he⟩ | ⟨e, he⟩
      · rw [hd] at he
        cases he
      · exact ⟨e, hm.2 drv e hd he, Or.inr he⟩
  obtain ⟨e, he, hor⟩ := key
  refine ⟨⟨e, he, hor⟩, ?_, ?_⟩
  · intro c hc
    rw [he] at hc
    cases hc
  · intro d hc
    rw [he] at hc
    cases hc

/-- Witness for C5: a section with `open`, `import` and `dialect` but no `driver`. -/
theorem newDBConfDetails_required_missing_witness :
    (∃ e, newDBConfDetails
          (sampleExternals [("test.open", "x"), ("test.import", "github.com/lib/pq"),
            ("test.dialect", "postgres")]) "db.yml" "db" "test" = .error (.yaml e)) ∧
      (fileOfList [("test.open", "x"), ("test.import", "github.com/lib/pq"),
        ("test.dialect", "postgres")]).Get ("test" ++ ".driver")
          = .error "yaml: test.driver: not found" := by
  refine ⟨?_, rfl⟩
  obtain ⟨e, he, _⟩ := (newDBConfDetails_required_missing
    (sampleExternals [("test.open", "x"), ("test.import", "github.com/lib/pq"),
      ("test.dialect", "postgres")]) "db.yml" "db" "test"
    (fileOfList [("test.open", "x"), ("test.import", "github.com/lib/pq"),
      ("test.dialect", "postgres")]) rfl (Or.inl ⟨"yaml: test.driver: not found", rfl⟩)).1
  exact ⟨e, he⟩

/-- C6: for a readable configuration source, `newDBConfDetails` fails if and only if
the `driver` field is missing, or the `open` field is missing, or the driver left by
the registry lookup and the overrides has an empty `Import` or a nil `Dialect`. When
the `import` and `dialect` fields are both absent, it fails only if a required field
is missing or the driver name is outside the registry: absence of the optional fields
is not by itself a cause of failure. -/
theorem newDBConfDetails_fails_iff (x : Externals) (cfgFile migrationsDir env : String)
    (f : File) (hf : x.ReadFile cfgFile = .ok f) :
    ((∃ err, newDBConfDetails x cfgFile migrationsDir env = .error err) ↔
        (∃ e, f.Get (env ++ ".driver") = .error e) ∨
        (∃ e, f.Get (env ++ ".open") = .error e) ∨
        (∃ drv, f.Get (env ++ ".driver") = .ok drv ∧
          (importAfterOverrides f env drv = "" ∨ dialectAfterOverrides x f env drv = none))) ∧
      ((∃ e, f.Get (env ++ ".import") = .error e) →
        (∃ e, f.Get (env ++ ".dialect") = .error e) →
        ((∃ err, newDBConfDetails x cfgFile migrationsDir env = .error err) ↔
          (∃ e, f.Get (env ++ ".driver") = .error e) ∨
          (∃ e, f.Get (env ++ ".open") = .error e) ∨
          (∃ drv, f.Get (env ++ ".driver") = .ok drv ∧ drv ≠ "postgres" ∧ drv ≠ "mymysql"))) := by
  have hm := newDBConfDetails_missing x cfgFile migrationsDir env f hf
  have main : (∃ err, newDBConfDetails x cfgFile migrationsDir env = .error err) ↔
      (∃ e, f.Get (env ++ ".driver") = .error e) ∨
      (∃ e, f.Get (env ++ ".open") = .error e) ∨
      (∃ drv, f.Get (env ++ ".driver") = .ok drv ∧
        (importAfterOverrides f env drv = "" ∨ dialectAfterOverrides x f env drv = none)) := by
    cases hd : f.Get (env ++ ".driver") with
    | error e =>
      exact ⟨fun _ => Or.inl ⟨e, rfl⟩, fun _ => ⟨_, hm.1 e hd⟩⟩
    | ok drv =>
      cases ho : f.Get (env ++ ".open") with
      | error e =>
        exact ⟨fun _ => Or.inr (Or.inl ⟨e, rfl⟩), fun _ => ⟨_, hm.2 drv e hd ho⟩⟩
      | ok openRaw =>
        rw [newDBConfDetails_eq x cfgFile migrationsDir env f drv openRaw hf hd ho]
        by_cases hv : (DBDriver.mk drv (resolvedOpen x drv openRaw)
            (importAfterOverrides f env drv) (dialectAfterOverrides x f env drv)).IsValid = true
        · rw [if_pos hv]
          have hv2 := (isValid_iff _).1 hv
          constructor
          · rintro ⟨err, herr⟩
            cases herr
          · rintro (⟨e, he⟩ | ⟨e, he⟩ | ⟨drv2, hd2, hbad⟩)
            · cases he
            · cases he
            · injection hd2 with hd2
              subst hd2
              rcases hbad with hb | hb
              · exact absurd hb hv2.1
              · exact absurd hb hv2.2
        · rw [if_neg hv]
          constructor
          · intro _
            refine Or.inr (Or.inr ⟨drv, rfl, ?_⟩)
            by_contra hn
            rw [not_or] at hn
            exact hv ((isValid_iff _).2 hn)
          · intro _
            exact ⟨_, rfl⟩
  refine ⟨main, ?_⟩
  rintro ⟨e1, hi⟩ ⟨e2, hdl⟩
  rw [main]
  have hreg : ∀ drv, (importAfterOverrides f env drv = "" ∨
      dialectAfterOverrides x f env drv = none) ↔ (drv ≠ "postgres" ∧ drv ≠ "mymysql") := by
    intro drv
    simp only [importAfterOverrides, dialectAfterOverrides, hi, hdl]
    constructor
    · intro hbad
      by_contra hn
      have hk : drv = "postgres" ∨ drv = "mymysql" := by
        by_cases h1 : drv = "postgres"
        · exact Or.inl h1
        · by_cases h2 : drv = "mymysql"
          · exact Or.inr h2
          · exact absurd ⟨h1, h2⟩ hn
      have := NewDBDriver_known drv "" hk
      rcases hbad with hb | hb
      · exact this.1 hb
      · exact this.2 hb
    · rintro ⟨h1, h2⟩
      exact Or.inl (NewDBDriver_unknown drv "" h1 h2).1
  simp only [hreg]

/-- Witness for C6: a "sqlite3" section without overrides fails, its driver being
outside the registry. -/
theorem newDBConfDetails_fails_iff_witness :
    (∃ err, newDBConfDetails (sampleExternals [("test.driver", "sqlite3"), ("test.open", "x")])
        "db.yml" "db" "test" = .error err) ∧
      "" = importAfterOverrides (fileOfList [("test.driver", "sqlite3"), ("test.open", "x")])
        "test" "sqlite3" :=
  ⟨(newDBConfDetails_fails_iff (sampleExternals [("test.driver", "sqlite3"), ("test.open", "x")])
      "db.yml" "db" "test" (fileOfList [("test.driver", "sqlite3"), ("test.open", "x")]) rfl).1.2
      (Or.inr (Or.inr ⟨"sqlite3", rfl, Or.inl rfl⟩)),
    rfl⟩

/-! ## The resolver: known and unknown driver names -/

/-- C7, as stated, fails: a section with `driver: postgres`, an `open` field and an
`import` field holding the empty string does not resolve (the override empties
the import), and with `dialect: mysql` next to `driver: postgres` it resolves to a
dialect that is not the registry's. -/
theorem newDBConfDetails_known_override_counterexample :
    newDBConfDetails
        (sampleExternals [("test.driver", "postgres"), ("test.open", "x"), ("test.import", "")])
        "db.yml" "db" "test"
      = .error (.invalidDBConf ⟨"postgres", "x", "", some SqlDialect.PostgresDialect⟩) ∧
    newDBConfDetails
        (sampleExternals [("test.driver", "postgres"), ("test.open", "x"),
          ("test.dialect", "mysql")])
        "db.yml" "db" "test"
      = .ok ⟨"db", "test", ⟨"postgres", "x", "github.com/lib/pq", some SqlDialect.MySqlDialect⟩⟩ ∧
    (NewDBDriver "postgres" "x").Dialect ≠ some SqlDialect.MySqlDialect :=
  ⟨rfl, rfl, by decide⟩

/-- C7, amended: for `N` in {"postgres", "mymysql"}, a readable configuration whose
environment section has `driver: N` and an `open` field, and neither an `import` nor a
`dialect` field, resolves; the returned driver has a non-empty `Import` and a non-nil
`Dialect`, both the ones `NewDBDriver` gives for `N`. -/
theorem newDBConfDetails_known_driver (x : Externals) (cfgFile migrationsDir env : String)
    (f : File) (N openRaw : String)
    (hN : N = "postgres" ∨ N = "mymysql")
    (hf : x.ReadFile cfgFile = .ok f)
    (hdrv : f.Get (env ++ ".driver") = .ok N)
    (hopen : f.Get (env ++ ".open") = .ok openRaw)
    (himp : ∃ e, f.Get (env ++ ".import") = .error e)
    (hdia : ∃ e, f.Get (env ++ ".dialect") = .error e) :
    ∃ c, newDBConfDetails x cfgFile migrationsDir env = .ok c ∧
      c.Driver.Import ≠ "" ∧ c.Driver.Dialect ≠ none ∧
      ∀ o, c.Driver.Import = (NewDBDriver N o).Import ∧
        c.Driver.Dialect = (NewDBDriver N o).Dialect := by
  obtain ⟨e1, hi⟩ := himp
  obtain ⟨e2, hdl⟩ := hdia
  have hk := NewDBDriver_known N "" hN
  have hI : importAfterOverrides f env N = (NewDBDriver N "").Import := by
    simp only [importAfterOverrides, hi]
  have hD : dialectAfterOverrides x f env N = (NewDBDriver N "").Dialect := by
    simp only [dialectAfterOverrides, hdl]
  rw [newDBConfDetails_eq x cfgFile migrationsDir env f N openRaw hf hdrv hopen, hI, hD]
  have hv : (DBDriver.mk N (resolvedOpen x N openRaw) (NewDBDriver N "").Import
      (NewDBDriver N "").Dialect).IsValid = true := (isValid_iff _).2 hk
  rw [if_pos hv]
  exact ⟨_, rfl, hk.1, hk.2, fun o => NewDBDriver_import_dialect N "" o⟩

/-- Witness for C7 (amended): a "mymysql" section with `driver` and `open` only. -/
theorem newDBConfDetails_known_driver_witness :
    ∃ c, newDBConfDetails
        (sampleExternals [("test.driver", "mymysql"), ("test.open", "tcp:localhost:3306*db/u/p")])
        "db.yml" "db" "test" = .ok c ∧
      c.Driver.Import ≠ "" ∧ c.Driver.Dialect ≠ none ∧
      ∀ o, c.Driver.Import = (NewDBDriver "mymysql" o).Import ∧
        c.Driver.Dialect = (NewDBDriver "mymysql" o).Dialect :=
  newDBConfDetails_known_driver
    (sampleExternals [("test.driver", "mymysql"), ("test.open", "tcp:localhost:3306*db/u/p")])
    "db.yml" "db" "test"
    (fileOfList [("test.driver", "mymysql"), ("test.open", "tcp:localhost:3306*db/u/p")])
    "mymysql" "tcp:localhost:3306*db/u/p" (Or.inr rfl) rfl rfl rfl
    ⟨"yaml: test.import: not found", rfl⟩ ⟨"yaml: test.dialect: not found", rfl⟩

/-- C8: for a driver name other than "postgres" and "mymysql", a readable
configuration that has that driver and an `open` field but neither an `import` nor a
`dialect` field fails with the "Invalid DBConf" error, which reports a driver with
no import and no dialect, and returns no `DBConf`. -/
theorem newDBConfDetails_unknown_driver (x : Externals) (cfgFile migrationsDir env : String)
    (f : File) (drv openRaw : String)
    (h1 : drv ≠ "postgres") (h2 : drv ≠ "mymysql")
    (hf : x.ReadFile cfgFile = .ok f)
    (hdrv : f.Get (env ++ ".driver") = .ok drv)
    (hopen : f.Get (env ++ ".open") = .ok openRaw)
    (himp : ∃ e, f.Get (env ++ ".import") = .error e)
    (hdia : ∃ e, f.Get (env ++ ".dialect") = .error e) :
    (∃ d, newDBConfDetails x cfgFile migrationsDir env = .error (.invalidDBConf d) ∧
        d.Name = drv ∧ d.Import = "" ∧ d.Dialect = none) ∧
      ∀ c, newDBConfDetails x cfgFile migrationsDir env ≠ .ok c := by
  obtain ⟨e1, hi⟩ := himp
  obtain ⟨e2, hdl⟩ := hdia
  have hu := NewDBDriver_unknown drv "" h1 h2
  have hI : importAfterOverrides f env drv = "" := by
    simp only [importAfterOverrides, hi, hu.1]
  have hD : dialectAfterOverrides x f env drv = none := by
    simp only [dialectAfterOverrides, hdl, hu.2]
  rw [newDBConfDetails_eq x cfgFile migrationsDir env f drv openRaw hf hdrv hopen, hI, hD]
  have hv : ¬ (DBDriver.mk drv (resolvedOpen x drv openRaw) "" none).IsValid = true :=
    fun hv => ((isValid_iff _).1 hv).1 rfl
  rw [if_neg hv]
  refine ⟨⟨_, rfl, rfl, rfl, rfl⟩, ?_⟩
  intro c hc
  cases hc

/-- Witness for C8: a "sqlite3" section with `driver` and `open` only. -/
theorem newDBConfDetails_unknown_driver_witness :
    (∃ d, newDBConfDetails
          (sampleExternals [("test.driver", "sqlite3"), ("test.open", "db.sqlite")])
          "db.yml" "db" "test" = .error (.invalidDBConf d) ∧
        d.Name = "sqlite3" ∧ d.Import = "" ∧ d.Dialect = none) ∧
      ∀ c, newDBConfDetails
          (sampleExternals [("test.driver", "sqlite3"), ("test.open", "db.sqlite")])
          "db.yml" "db" "test" ≠ .ok c :=
  newDBConfDetails_unknown_driver
    (sampleExternals [("test.driver", "sqlite3"), ("test.open", "db.sqlite")])
    "db.yml" "db" "test"
    (fileOfList [("test.driver", "sqlite3"), ("test.open", "db.sqlite")])
    "sqlite3" "db.sqlite" (by decide) (by decide) rfl rfl rfl
    ⟨"yaml: test.import: not found", rfl⟩ ⟨"yaml: test.dialect: not found", rfl⟩

/-- C9: for a driver name other than "postgres" and "mymysql", a readable
configuration that has that driver, an `open` field, a non-empty `import` field `i`
and a `dialect` field whose name `DialectByName` recognises resolves, and the returned
driver has `Import = i` and `Dialect` the dialect looked up from the `dialect` field. -/
theorem newDBConfDetails_unknown_driver_overridden (x : Externals)
    (cfgFile migrationsDir env : String) (f : File) (drv openRaw i dialect : String)
    (dl : SqlDialect)
    (_h1 : drv ≠ "postgres") (_h2 : drv ≠ "mymysql")
    (hf : x.ReadFile cfgFile = .ok f)
    (hdrv : f.Get (env ++ ".driver") = .ok drv)
    (hopen : f.Get (env ++ ".open") = .ok openRaw)
    (himp : f.Get (env ++ ".import") = .ok i) (hi : i ≠ "")
    (hdia : f.Get (env ++ ".dialect") = .ok dialect)
    (hrec : x.DialectByName dialect = some dl) :
    ∃ c, newDBConfDetails x cfgFile migrationsDir env = .ok c ∧
      c.Driver.Import = i ∧ c.Driver.Dialect = x.DialectByName dialect ∧
      c.Driver.Dialect = some dl := by
  have hI : importAfterOverrides f env drv = i := by
    simp only [importAfterOverrides, himp]
  have hD : dialectAfterOverrides x f env drv = some dl := by
    simp only [dialectAfterOverrides, hdia, hrec]
  rw [newDBConfDetails_eq x cfgFile migrationsDir env f drv openRaw hf hdrv hopen, hI, hD]
  have hv : (DBDriver.mk drv (resolvedOpen x drv openRaw) i (some dl)).IsValid = true :=
    (isValid_iff _).2 ⟨hi, by simp⟩
  rw [if_pos hv]
  exact ⟨_, rfl, rfl, hrec.symm, rfl⟩

/-- Witness for C9: a "mysql" section (outside the registry, which knows "mymysql")
with both overrides. -/
theorem newDBConfDetails_unknown_driver_overridden_witness :
    ∃ c, newDBConfDetails
        (sampleExternals [("test.driver", "mysql"), ("test.open", "u:p@/db"),
          ("test.import", "github.com/go-sql-driver/mysql"), ("test.dialect", "mysql")])
        "db.yml" "db" "test" = .ok c ∧
      c.Driver.Import = "github.com/go-sql-driver/mysql" ∧
      c.Driver.Dialect = sampleDialectByName "mysql" ∧
      c.Driver.Dialect = some SqlDialect.MySqlDialect :=
  newDBConfDetails_unknown_driver_overridden
    (sampleExternals [("test.driver", "mysql"), ("test.open", "u:p@/db"),
      ("test.import", "github.com/go-sql-driver/mysql"), ("test.dialect", "mysql")])
    "db.yml" "db" "test"
    (fileOfList [("test.driver", "mysql"), ("test.open", "u:p@/db"),
      ("test.import", "github.com/go-sql-driver/mysql"), ("test.dialect", "mysql")])
    "mysql" "u:p@/db" "github.com/go-sql-driver/mysql" "mysql" SqlDialect.MySqlDialect
    (by decide) (by decide) rfl rfl rfl rfl (by decide) rfl rfl

/-- C10: for a readable configuration with `driver` and `open` present and a `dialect`
field whose name `DialectByName` does not recognise (it yields nil), `newDBConfDetails`
fails with the "Invalid DBConf" error, reporting a driver with a nil dialect; the
driver name (also "postgres" or "mymysql") and the `import` field are unconstrained. -/
theorem newDBConfDetails_unrecognised_dialect (x : Externals)
    (cfgFile migrationsDir env : String) (f : File) (drv openRaw dialect : String)
    (hf : x.ReadFile cfgFile = .ok f)
    (hdrv : f.Get (env ++ ".driver") = .ok drv)
    (hopen : f.Get (env ++ ".open") = .ok openRaw)
    (hdia : f.Get (env ++ ".dialect") = .ok dialect)
    (hnil : x.DialectByName dialect = none) :
    (∃ d, newDBConfDetails x cfgFile migrationsDir env = .error (.invalidDBConf d) ∧
        d.Name = drv ∧ d.Dialect = none) ∧
      ∀ c, newDBConfDetails x cfgFile migrationsDir env ≠ .ok c := by
  have hD : dialectAfterOverrides x f env drv = none := by
    simp only [dialectAfterOverrides, hdia, hnil]
  rw [newDBConfDetails_eq x cfgFile migrationsDir env f drv openRaw hf hdrv hopen, hD]
  have hv : ¬ (DBDriver.mk drv (resolvedOpen x drv openRaw) (importAfterOverrides f env drv)
      none).IsValid = true :=
    fun hv => ((isValid_iff _).1 hv).2 rfl
  rw [if_neg hv]
  refine ⟨⟨_, rfl, rfl, rfl⟩, ?_⟩
  intro c hc
  cases hc

/-- Witness for C10: a "postgres" section with a non-empty `import` and the dialect
name "oracle", which the sample lookup does not know. -/
theorem newDBConfDetails_unrecognised_dialect_witness :
    (∃ d, newDBConfDetails
          (sampleExternals [("test.driver", "postgres"), ("test.open", "x"),
            ("test.import", "github.com/lib/pq"), ("test.dialect", "oracle")])
          "db.yml" "db" "test" = .error (.invalidDBConf d) ∧
        d.Name = "postgres" ∧ d.Dialect = none) ∧
      ∀ c, newDBConfDetails
          (sampleExternals [("test.driver", "postgres"), ("test.open", "x"),
            ("test.import", "github.com/lib/pq"), ("test.dialect", "oracle")])
          "db.yml" "db" "test" ≠ .ok c :=
  newDBConfDetails_unrecognised_dialect
    (sampleExternals [("test.driver", "postgres"), ("test.open", "x"),
      ("test.import", "github.com/lib/pq"), ("test.dialect", "oracle")])
    "db.yml" "db" "test"
    (fileOfList [("test.driver", "postgres"), ("test.open", "x"),
      ("test.import", "github.com/lib/pq"), ("test.dialect", "oracle")])
    "postgres" "x" "oracle" rfl rfl rfl rfl rfl

/-! ## Auxiliary lemmas on successful resolution -/

/-- A successful resolution has read the file and found both required fields. -/
theorem newDBConfDetails_ok_reads (x : Externals) (cfgFile migrationsDir env : String)
    (c : DBConf) (h : newDBConfDetails x cfgFile migrationsDir env = .ok c) :
    ∃ f drv openRaw, x.ReadFile cfgFile = .ok f ∧ f.Get (env ++ ".driver") = .ok drv ∧
      f.Get (env ++ ".open") = .ok openRaw := by
  cases hf : x.ReadFile cfgFile with
  | error e => simp [newDBConfDetails, hf] at h
  | ok f =>
    cases hd : f.Get (env ++ ".driver") with
    | error e => simp [newDBConfDetails, hf, hd] at h
    | ok drv =>
      cases ho : f.Get (env ++ ".open") with
      | error e => simp [newDBConfDetails, hf, hd, ho] at h
      | ok openRaw => exact ⟨f, drv, openRaw, rfl, hd, ho⟩

/-- The configuration a successful resolution returns, field by field. -/
theorem newDBConfDetails_ok_eq (x : Externals) (cfgFile migrationsDir env : String)
    (f : File) (drv openRaw : String) (c : DBConf)
    (hf : x.ReadFile cfgFile = .ok f)
    (hdrv : f.Get (env ++ ".driver") = .ok drv)
    (hopen : f.Get (env ++ ".open") = .ok openRaw)
    (h : newDBConfDetails x cfgFile migrationsDir env = .ok c) :
    c = ⟨migrationsDir, env, DBDriver.mk drv (resolvedOpen x drv openRaw)
        (importAfterOverrides f env drv) (dialectAfterOverrides x f env drv)⟩ ∧
      importAfterOverrides f env drv ≠ "" ∧ dialectAfterOverrides x f env drv ≠ none := by
  rw [newDBConfDetails_eq x cfgFile migrationsDir env f drv openRaw hf hdrv hopen] at h
  split at h
  · rename_i hv
    injection h with h
    exact ⟨h.symm, (isValid_iff _).1 hv⟩
  · cases h

/-- Resolution succeeds as soon as both required fields are found and the import and
dialect left by the overrides are an import and a dialect. -/
theorem newDBConfDetails_ok_of_valid (x : Externals) (cfgFile migrationsDir env : String)
    (f : File) (drv openRaw : String)
    (hf : x.ReadFile cfgFile = .ok f)
    (hdrv : f.Get (env ++ ".driver") = .ok drv)
    (hopen : f.Get (env ++ ".open") = .ok openRaw)
    (hi : importAfterOverrides f env drv ≠ "")
    (hd : dialectAfterOverrides x f env drv ≠ none) :
    newDBConfDetails x cfgFile migrationsDir env =
      .ok ⟨migrationsDir, env, DBDriver.mk drv (resolvedOpen x drv openRaw)
        (importAfterOverrides f env drv) (dialectAfterOverrides x f env drv)⟩ := by
  rw [newDBConfDetails_eq x cfgFile migrationsDir env f drv openRaw hf hdrv hopen]
  have hv : (DBDriver.mk drv (resolvedOpen x drv openRaw) (importAfterOverrides f env drv)
      (dialectAfterOverrides x f env drv)).IsValid = true := (isValid_iff _).2 ⟨hi, hd⟩
  rw [if_pos hv]

/-- Resolution fails with the "Invalid DBConf" error when both required fields are
found and the overrides leave no import or no dialect. -/
theorem newDBConfDetails_error_of_invalid (x : Externals)
    (cfgFile migrationsDir env : String) (f : File) (drv openRaw : String)
    (hf : x.ReadFile cfgFile = .ok f)
    (hdrv : f.Get (env ++ ".driver") = .ok drv)
    (hopen : f.Get (env ++ ".open") = .ok openRaw)
    (hbad : importAfterOverrides f env drv = "" ∨ dialectAfterOverrides x f env drv = none) :
    newDBConfDetails x cfgFile migrationsDir env =
      .error (.invalidDBConf (DBDriver.mk drv (resolvedOpen x drv openRaw)
        (importAfterOverrides f env drv) (dialectAfterOverrides x f env drv))) := by
  rw [newDBConfDetails_eq x cfgFile migrationsDir env f drv openRaw hf hdrv hopen]
  have hv : ¬ (DBDriver.mk drv (resolvedOpen x drv openRaw) (importAfterOverrides f env drv)
      (dialectAfterOverrides x f env drv)).IsValid = true := by
    intro hv
    have hv2 := (isValid_iff _).1 hv
    rcases hbad with hb | hb
    · exact hv2.1 hb
    · exact hv2.2 hb
  rw [if_neg hv]

/-- The resolved connection string, case by case. -/
theorem resolvedOpen_cases (x : Externals) (drv openRaw : String) :
    (drv = "postgres" → ∀ u, x.ParseURL (x.ExpandEnv openRaw) = .ok u → u ≠ "" →
        resolvedOpen x drv openRaw = u) ∧
      (drv = "postgres" → (∃ e, x.ParseURL (x.ExpandEnv openRaw) = .error e) →
        resolvedOpen x drv openRaw = x.ExpandEnv openRaw) ∧
      (drv = "postgres" → x.ParseURL (x.ExpandEnv openRaw) = .ok "" →
        resolvedOpen x drv openRaw = x.ExpandEnv openRaw) ∧
      (drv ≠ "postgres" → resolvedOpen x drv openRaw = x.ExpandEnv openRaw) := by
  refine ⟨?_, ?_, ?_, ?_⟩
  · intro hp u hu hne
    simp only [resolvedOpen, hp, if_true, hu, if_neg hne]
  · rintro hp ⟨e, he⟩
    simp only [resolvedOpen, hp, if_true, he]
  · intro hp hu
    simp only [resolvedOpen, hp, if_true, hu]
  · intro hp
    simp only [resolvedOpen, if_neg hp]

/-! ## The resolver: connection string and frame -/

/-- C11: let `E` be the environment-expanded value of the `open` field. Whenever
`newDBConfDetails` succeeds, the returned `Driver.OpenStr` is the normalized form the
postgres URL parser returns on `E` when the driver is "postgres" and parsing `E`
succeeds with a non-empty result, and is `E` unchanged in every other case (parsing
fails, parsing yields the empty string, the driver is not "postgres"). A parse failure
never makes resolution fail: with any other URL parser in place of this one,
resolution succeeds as well. -/
theorem newDBConfDetails_openStr (x : Externals) (cfgFile migrationsDir env : String)
    (f : File) (drv openRaw : String) (c : DBConf)
    (hf : x.ReadFile cfgFile = .ok f)
    (hdrv : f.Get (env ++ ".driver") = .ok drv)
    (hopen : f.Get (env ++ ".open") = .ok openRaw)
    (h : newDBConfDetails x cfgFile migrationsDir env = .ok c) :
    (drv = "postgres" → ∀ u, x.ParseURL (x.ExpandEnv openRaw) = .ok u → u ≠ "" →
        c.Driver.OpenStr = u) ∧
      (drv = "postgres" → (∃ e, x.ParseURL (x.ExpandEnv openRaw) = .error e) →
        c.Driver.OpenStr = x.ExpandEnv openRaw) ∧
      (drv = "postgres" → x.ParseURL (x.ExpandEnv openRaw) = .ok "" →
        c.Driver.OpenStr = x.ExpandEnv openRaw) ∧
      (drv ≠ "postgres" → c.Driver.OpenStr = x.ExpandEnv openRaw) ∧
      (∀ p : String → Except String String,
        ∃ c', newDBConfDetails { x with ParseURL := p } cfgFile migrationsDir env = .ok c') := by
  obtain ⟨hc, hi, hd⟩ :=
    newDBConfDetails_ok_eq x cfgFile migrationsDir env f drv openRaw c hf hdrv hopen h
  have ho : c.Driver.OpenStr = resolvedOpen x drv openRaw := by rw [hc]
  rw [ho]
  obtain ⟨r1, r2, r3, r4⟩ := resolvedOpen_cases x drv openRaw
  refine ⟨r1, r2, r3, r4, fun p => ?_⟩
  exact ⟨_, newDBConfDetails_ok_of_valid { x with ParseURL := p } cfgFile migrationsDir env
    f drv openRaw hf hdrv hopen hi hd⟩

/-- Witness for C11: a postgres section whose `open` is a URL the parser normalizes. -/
theorem newDBConfDetails_openStr_witness :
    (DBConf.mk "db" "test" ⟨"postgres", "dbname=db host=localhost password=p user=u",
        "github.com/lib/pq", some SqlDialect.PostgresDialect⟩).Driver.OpenStr
      = "dbname=db host=localhost password=p user=u" :=
  (newDBConfDetails_openStr
    (sampleExternalsWith [("test.driver", "postgres"), ("test.open", "postgres://u:p@localhost/db")]
      sampleGetenv
      [("postgres://u:p@localhost/db", "dbname=db host=localhost password=p user=u")])
    "db.yml" "db" "test"
    (fileOfList [("test.driver", "postgres"), ("test.open", "postgres://u:p@localhost/db")])
    "postgres" "postgres://u:p@localhost/db"
    ⟨"db", "test", ⟨"postgres", "dbname=db host=localhost password=p user=u",
      "github.com/lib/pq", some SqlDialect.PostgresDialect⟩⟩
    rfl rfl rfl rfl).1 rfl "dbname=db host=localhost password=p user=u" rfl (by decide)

/-- C12: whenever `newDBConfDetails cfgFile migrationsDir env` succeeds, the returned
`DBConf` has `MigrationsDir` equal to the `migrationsDir` argument, `Env` equal to the
`env` argument, and `Driver.Name` equal to the value of the `<env>.driver` field. -/
theorem newDBConfDetails_frame (x : Externals) (cfgFile migrationsDir env : String)
    (c : DBConf) (h : newDBConfDetails x cfgFile migrationsDir env = .ok c) :
    c.MigrationsDir = migrationsDir ∧ c.Env = env ∧
      ∃ f, x.ReadFile cfgFile = .ok f ∧ f.Get (env ++ ".driver") = .ok c.Driver.Name := by
  obtain ⟨f, drv, openRaw, hf, hdrv, hopen⟩ :=
    newDBConfDetails_ok_reads x cfgFile migrationsDir env c h
  obtain ⟨hc, _, _⟩ :=
    newDBConfDetails_ok_eq x cfgFile migrationsDir env f drv openRaw c hf hdrv hopen h
  subst hc
  exact ⟨rfl, rfl, f, hf, hdrv⟩

/-- Witness for C12: the migrations directory, the environment name and the driver
name of a resolved "mymysql" section. -/
theorem newDBConfDetails_frame_witness :
    (DBConf.mk "db/migrations" "production" ⟨"mymysql", "tcp:localhost:3306*db/u/p",
        "github.com/ziutek/mymysql/godrv", some SqlDialect.MySqlDialect⟩).MigrationsDir
      = "db/migrations" :=
  (newDBConfDetails_frame
    (sampleExternals [("production.driver", "mymysql"),
      ("production.open", "tcp:localhost:3306*db/u/p")])
    "db.yml" "db/migrations" "production"
    ⟨"db/migrations", "production", ⟨"mymysql", "tcp:localhost:3306*db/u/p",
      "github.com/ziutek/mymysql/godrv", some SqlDialect.MySqlDialect⟩⟩ rfl).1

/-! ## Auxiliary lemmas on expansion and paths -/

/-- The two spellings of a reference to `DBHOST` expand to the variable's value. -/
theorem ExpandEnv_host (getenv : String → String) :
    ExpandEnv getenv "host=$DBHOST" = "host=" ++ getenv "DBHOST" ∧
      ExpandEnv getenv "host=${DBHOST}" = "host=" ++ getenv "DBHOST" := by
  constructor <;>
  · apply String.ext
    rw [String.data_append]
    simp [ExpandEnv, Expand, expandFuel, getShellName, isShellSpecialVar, isAlphaNum]

/-- Two fields of one environment section have different paths. -/
theorem path_ne (env a b : String) (h : a ≠ b) : env ++ a ≠ env ++ b := by
  intro heq
  apply h
  have hd := congrArg String.data heq
  rw [String.data_append, String.data_append] at hd
  exact String.ext (List.append_cancel_left hd)

/-- Presence and value of the `import` field decide the import after overrides. -/
theorem importAfterOverrides_congr (f f' : File) (env env' drv : String)
    (h : (f.Get (env ++ ".import")).toOption = (f'.Get (env' ++ ".import")).toOption) :
    importAfterOverrides f env drv = importAfterOverrides f' env' drv := by
  unfold importAfterOverrides
  cases h1 : f.Get (env ++ ".import") <;> cases h2 : f'.Get (env' ++ ".import") <;>
    simp_all [Except.toOption]

/-- Presence and value of the `dialect` field decide the dialect after overrides. -/
theorem dialectAfterOverrides_congr (x x' : Externals) (f f' : File) (env env' drv : String)
    (hD : x'.DialectByName = x.DialectByName)
    (h : (f.Get (env ++ ".dialect")).toOption = (f'.Get (env' ++ ".dialect")).toOption) :
    dialectAfterOverrides x f env drv = dialectAfterOverrides x' f' env' drv := by
  unfold dialectAfterOverrides
  cases h1 : f.Get (env ++ ".dialect") <;> cases h2 : f'.Get (env' ++ ".dialect") <;>
    simp_all [Except.toOption]

/-! ## The resolver: expansion and normalization -/

/-- C13: environment-variable expansion is applied to the `open` value, and before
postgres URL parsing. With `os.ExpandEnv` being the shell-style expansion against the
process environment `getenv`, the connection string of every successful resolution is
the expansion of `open`, or, for the driver "postgres", what the URL parser returns
on that expansion. In particular, with `open` being `host=$DBHOST` and `DBHOST` set
to `prod-db`, the resolved `Driver.OpenStr` is `host=prod-db`, so contains it (for the
driver "postgres": as long as the URL parser does not turn the string `host=prod-db`,
which is not a URL, into a non-empty normalized form); the `${DBHOST}` spelling
resolves alike, and a variable that is not set expands to the empty string. -/
theorem newDBConfDetails_expands_open (x : Externals) (getenv : String → String)
    (cfgFile migrationsDir env : String) (f : File) (drv openRaw : String) (c : DBConf)
    (hx : x.ExpandEnv = ExpandEnv getenv)
    (hf : x.ReadFile cfgFile = .ok f)
    (hdrv : f.Get (env ++ ".driver") = .ok drv)
    (hopen : f.Get (env ++ ".open") = .ok openRaw)
    (h : newDBConfDetails x cfgFile migrationsDir env = .ok c) :
    (c.Driver.OpenStr = ExpandEnv getenv openRaw ∨
        (drv = "postgres" ∧ x.ParseURL (ExpandEnv getenv openRaw) = .ok c.Driver.OpenStr)) ∧
      (openRaw = "host=$DBHOST" → getenv "DBHOST" = "prod-db" →
        (drv ≠ "postgres" ∨ ∀ u, x.ParseURL "host=prod-db" = .ok u → u = "") →
        c.Driver.OpenStr = "host=prod-db" ∧
          ∃ pre post, c.Driver.OpenStr = pre ++ "host=prod-db" ++ post) ∧
      (openRaw = "host=$DBHOST" ∨ openRaw = "host=${DBHOST}" →
        (drv ≠ "postgres" ∨ ∀ u, x.ParseURL ("host=" ++ getenv "DBHOST") = .ok u → u = "") →
        c.Driver.OpenStr = "host=" ++ getenv "DBHOST") := by
  obtain ⟨hc, _, _⟩ :=
    newDBConfDetails_ok_eq x cfgFile migrationsDir env f drv openRaw c hf hdrv hopen h
  have ho : c.Driver.OpenStr = resolvedOpen x drv openRaw := by rw [hc]
  obtain ⟨r1, r2, r3, r4⟩ := resolvedOpen_cases x drv openRaw
  rw [hx] at r1 r2 r3 r4
  -- the connection string when the parser gives no non-empty form on the expansion
  have hkeep : (drv ≠ "postgres" ∨ ∀ u, x.ParseURL (ExpandEnv getenv openRaw) = .ok u → u = "") →
      c.Driver.OpenStr = ExpandEnv getenv openRaw := by
    intro hp
    rw [ho]
    by_cases hd : drv = "postgres"
    · rcases hp with hp | hp
      · exact absurd hd hp
      · cases hu : x.ParseURL (ExpandEnv getenv openRaw) with
        | error e => exact r2 hd ⟨e, hu⟩
        | ok u =>
          have hu0 := hp u hu
          subst hu0
          exact r3 hd hu
    · exact r4 hd
  have hgen : (openRaw = "host=$DBHOST" ∨ openRaw = "host=${DBHOST}") →
      (drv ≠ "postgres" ∨ ∀ u, x.ParseURL ("host=" ++ getenv "DBHOST") = .ok u → u = "") →
      c.Driver.OpenStr = "host=" ++ getenv "DBHOST" := by
    intro hraw hp
    have hE : ExpandEnv getenv openRaw = "host=" ++ getenv "DBHOST" := by
      rcases hraw with hraw | hraw
      · rw [hraw]
        exact (ExpandEnv_host getenv).1
      · rw [hraw]
        exact (ExpandEnv_host getenv).2
    rw [← hE] at hp ⊢
    exact hkeep hp
  refine ⟨?_, ?_, hgen⟩
  · rw [ho]
    by_cases hd : drv = "postgres"
    · cases hu : x.ParseURL (ExpandEnv getenv openRaw) with
      | error e => exact Or.inl (r2 hd ⟨e, hu⟩)
      | ok u =>
        by_cases hu0 : u = ""
        · subst hu0
          exact Or.inl (r3 hd hu)
        · exact Or.inr ⟨hd, by rw [r1 hd u hu hu0]⟩
    · exact Or.inl (r4 hd)
  · intro hraw henv hp
    have hval : "host=" ++ getenv "DBHOST" = "host=prod-db" := by
      rw [henv]
      rfl
    have heq : c.Driver.OpenStr = "host=prod-db" := by
      rw [← hval] at hp ⊢
      exact hgen (Or.inl hraw) hp
    refine ⟨heq, "", "", ?_⟩
    rw [heq]
    rfl

/-- Witness for C13: a postgres section with `open: host=$DBHOST`, resolved in an
environment where `DBHOST` is `prod-db`. -/
theorem newDBConfDetails_expands_open_witness :
    (DBConf.mk "db" "test" ⟨"postgres", "host=prod-db", "github.com/lib/pq",
        some SqlDialect.PostgresDialect⟩).Driver.OpenStr = "host=prod-db" :=
  ((newDBConfDetails_expands_open
    (sampleExternalsWith [("test.driver", "postgres"), ("test.open", "host=$DBHOST")]
      sampleGetenv [])
    sampleGetenv "db.yml" "db" "test"
    (fileOfList [("test.driver", "postgres"), ("test.open", "host=$DBHOST")])
    "postgres" "host=$DBHOST"
    ⟨"db", "test", ⟨"postgres", "host=prod-db", "github.com/lib/pq",
      some SqlDialect.PostgresDialect⟩⟩
    rfl rfl rfl rfl rfl).2.1 rfl rfl (Or.inr (fun u hu => by cases hu))).1

/-- C14, as stated, fails, for two separate reasons.
Expansion: with `PGPASS` set to `a$b`, a postgres section with
`open: password=$PGPASS` resolves to the connection string `password=a$b` (not a URL,
so it is kept); the same section with `open` replaced by `password=a$b` resolves to
`password=a`, because `open` is expanded again and `$b` is not set.
Normalization: the parser's output can itself be a postgres URL. The URL
`postgres://?postgres%3A%2F%2Fh%2Fdb%23=1` has one query parameter, whose name decodes
to `postgres://h/db#`, and no host or path, so its normalized form is that name,
`=` and the value: `postgres://h/db#='1'` as lib/pq quotes values today,
`postgres://h/db#=1` as it wrote them bare at first. Either form holds no `$`, so
expansion leaves it unchanged, and normalizing it gives the DSN of host `h` and
database `db`, another non-empty string: the same section with `open` replaced by
the resolved connection string resolves to a different one. -/
theorem newDBConfDetails_reresolve_counterexample :
    (newDBConfDetails
        (sampleExternalsWith [("test.driver", "postgres"), ("test.open", "password=$PGPASS")]
          sampleGetenv [])
        "db.yml" "db" "test"
      = .ok ⟨"db", "test", ⟨"postgres", "password=a$b", "github.com/lib/pq",
          some SqlDialect.PostgresDialect⟩⟩ ∧
    newDBConfDetails
        (sampleExternalsWith [("test.driver", "postgres"), ("test.open", "password=a$b")]
          sampleGetenv [])
        "db.yml" "db" "test"
      = .ok ⟨"db", "test", ⟨"postgres", "password=a", "github.com/lib/pq",
          some SqlDialect.PostgresDialect⟩⟩ ∧
    "password=a" ≠ "password=a$b") ∧
    (newDBConfDetails
        (sampleExternalsWith
          [("test.driver", "postgres"),
            ("test.open", "postgres://?postgres%3A%2F%2Fh%2Fdb%23=1")]
          sampleGetenv
          [("postgres://?postgres%3A%2F%2Fh%2Fdb%23=1", "postgres://h/db#='1'"),
            ("postgres://h/db#='1'", "dbname='db' host='h'")])
        "db.yml" "db" "test"
      = .ok ⟨"db", "test", ⟨"postgres", "postgres://h/db#='1'", "github.com/lib/pq",
          some SqlDialect.PostgresDialect⟩⟩ ∧
    ExpandEnv sampleGetenv "postgres://h/db#='1'" = "postgres://h/db#='1'" ∧
    newDBConfDetails
        (sampleExternalsWith
          [("test.driver", "postgres"), ("test.open", "postgres://h/db#='1'")]
          sampleGetenv
          [("postgres://?postgres%3A%2F%2Fh%2Fdb%23=1", "postgres://h/db#='1'"),
            ("postgres://h/db#='1'", "dbname='db' host='h'")])
        "db.yml" "db" "test"
      = .ok ⟨"db", "test", ⟨"postgres", "dbname='db' host='h'", "github.com/lib/pq",
          some SqlDialect.PostgresDialect⟩⟩ ∧
    "dbname='db' host='h'" ≠ "postgres://h/db#='1'") ∧
    (newDBConfDetails
        (sampleExternalsWith
          [("test.driver", "postgres"),
            ("test.open", "postgres://?postgres%3A%2F%2Fh%2Fdb%23=1")]
          sampleGetenv
          [("postgres://?postgres%3A%2F%2Fh%2Fdb%23=1", "postgres://h/db#=1"),
            ("postgres://h/db#=1", "dbname=db host=h")])
        "db.yml" "db" "test"
      = .ok ⟨"db", "test", ⟨"postgres", "postgres://h/db#=1", "github.com/lib/pq",
          some SqlDialect.PostgresDialect⟩⟩ ∧
    ExpandEnv sampleGetenv "postgres://h/db#=1" = "postgres://h/db#=1" ∧
    newDBConfDetails
        (sampleExternalsWith
          [("test.driver", "postgres"), ("test.open", "postgres://h/db#=1")]
          sampleGetenv
          [("postgres://?postgres%3A%2F%2Fh%2Fdb%23=1", "postgres://h/db#=1"),
            ("postgres://h/db#=1", "dbname=db host=h")])
        "db.yml" "db" "test"
      = .ok ⟨"db", "test", ⟨"postgres", "dbname=db host=h", "github.com/lib/pq",
          some SqlDialect.PostgresDialect⟩⟩ ∧
    "dbname=db host=h" ≠ "postgres://h/db#=1") :=
  ⟨⟨rfl, rfl, by decide⟩, ⟨rfl, rfl, rfl, by decide⟩, ⟨rfl, rfl, rfl, by decide⟩⟩

/-- C14, amended: for a configuration with driver "postgres" that resolves to a
connection string `s` which environment-variable expansion leaves unchanged,
resolving the same configuration with `open` replaced by `s` succeeds again, with the
same `MigrationsDir`, `Env`, `Name`, `Import` and `Dialect`; and it yields the
connection string `s` if and only if normalizing `s` returns it unchanged, returns
the empty string or fails (`s` is then kept). -/
theorem newDBConfDetails_reresolve (x : Externals)
    (cfgFile cfgFile' migrationsDir env : String) (f f' : File) (openRaw : String)
    (c : DBConf)
    (hf : x.ReadFile cfgFile = .ok f)
    (hdrv : f.Get (env ++ ".driver") = .ok "postgres")
    (hopen : f.Get (env ++ ".open") = .ok openRaw)
    (h : newDBConfDetails x cfgFile migrationsDir env = .ok c)
    (hf' : x.ReadFile cfgFile' = .ok f')
    (hsame : ∀ path, path ≠ env ++ ".open" → f'.Get path = f.Get path)
    (hopen' : f'.Get (env ++ ".open") = .ok c.Driver.OpenStr)
    (hexp : x.ExpandEnv c.Driver.OpenStr = c.Driver.OpenStr) :
    ∃ c', newDBConfDetails x cfgFile' migrationsDir env = .ok c' ∧
      c'.MigrationsDir = c.MigrationsDir ∧ c'.Env = c.Env ∧
      c'.Driver.Name = c.Driver.Name ∧ c'.Driver.Import = c.Driver.Import ∧
      c'.Driver.Dialect = c.Driver.Dialect ∧
      (c'.Driver.OpenStr = c.Driver.OpenStr ↔
        (x.ParseURL c.Driver.OpenStr = .ok c.Driver.OpenStr ∨
          x.ParseURL c.Driver.OpenStr = .ok "" ∨
          ∃ e, x.ParseURL c.Driver.OpenStr = .error e)) := by
  obtain ⟨hc, hi, hd⟩ :=
    newDBConfDetails_ok_eq x cfgFile migrationsDir env f "postgres" openRaw c hf hdrv hopen h
  have hdrv' : f'.Get (env ++ ".driver") = .ok "postgres" := by
    rw [hsame _ (path_ne env ".driver" ".open" (by decide)), hdrv]
  have himp : f'.Get (env ++ ".import") = f.Get (env ++ ".import") :=
    hsame _ (path_ne env ".import" ".open" (by decide))
  have hdia : f'.Get (env ++ ".dialect") = f.Get (env ++ ".dialect") :=
    hsame _ (path_ne env ".dialect" ".open" (by decide))
  have hI : importAfterOverrides f' env "postgres" = importAfterOverrides f env "postgres" := by
    simp only [importAfterOverrides, himp]
  have hD : dialectAfterOverrides x f' env "postgres"
      = dialectAfterOverrides x f env "postgres" := by
    simp only [dialectAfterOverrides, hdia]
  -- the connection string of the second resolution is `s` exactly in the three cases
  have hO : resolvedOpen x "postgres" c.Driver.OpenStr = c.Driver.OpenStr ↔
      (x.ParseURL c.Driver.OpenStr = .ok c.Driver.OpenStr ∨
        x.ParseURL c.Driver.OpenStr = .ok "" ∨
        ∃ e, x.ParseURL c.Driver.OpenStr = .error e) := by
    unfold resolvedOpen
    rw [if_pos rfl, hexp]
    cases hp : x.ParseURL c.Driver.OpenStr with
    | error e => exact ⟨fun _ => Or.inr (Or.inr ⟨e, rfl⟩), fun _ => rfl⟩
    | ok u =>
      by_cases h0 : u = ""
      · subst h0
        exact ⟨fun _ => Or.inr (Or.inl rfl), fun _ => by simp only [if_true]⟩
      · simp only [if_neg h0]
        constructor
        · intro hu
          rw [hu]
          exact Or.inl rfl
        · rintro (hu | hu | ⟨e, hu⟩)
          · injection hu
          · injection hu with hu
            exact absurd hu h0
          · cases hu
  have hres := newDBConfDetails_ok_of_valid x cfgFile' migrationsDir env f' "postgres"
    c.Driver.OpenStr hf' hdrv' hopen' (by rw [hI]; exact hi) (by rw [hD]; exact hd)
  rw [hI, hD] at hres
  refine ⟨_, hres, ?_, ?_, ?_, ?_, ?_, hO⟩ <;> rw [hc]

/-- Witness for C14 (amended): a postgres URL and its normalized form, which holds no
variable reference and is not itself a URL. -/
theorem newDBConfDetails_reresolve_witness :
    ∃ c', newDBConfDetails
        (sampleExternalsTwo
          [("test.driver", "postgres"), ("test.open", "postgres://u:p@localhost/db")]
          [("test.driver", "postgres"),
            ("test.open", "dbname=db host=localhost password=p user=u")]
          sampleGetenv
          [("postgres://u:p@localhost/db", "dbname=db host=localhost password=p user=u")])
        "db2.yml" "db" "test" = .ok c' ∧
      c'.Driver.OpenStr = "dbname=db host=localhost password=p user=u" := by
  obtain ⟨c', hres, _, _, _, _, _, hiff⟩ := newDBConfDetails_reresolve
    (sampleExternalsTwo
      [("test.driver", "postgres"), ("test.open", "postgres://u:p@localhost/db")]
      [("test.driver", "postgres"),
        ("test.open", "dbname=db host=localhost password=p user=u")]
      sampleGetenv
      [("postgres://u:p@localhost/db", "dbname=db host=localhost password=p user=u")])
    "db.yml" "db2.yml" "db" "test"
    (fileOfList [("test.driver", "postgres"), ("test.open", "postgres://u:p@localhost/db")])
    (fileOfList [("test.driver", "postgres"),
      ("test.open", "dbname=db host=localhost password=p user=u")])
    "postgres://u:p@localhost/db"
    ⟨"db", "test", ⟨"postgres", "dbname=db host=localhost password=p user=u",
      "github.com/lib/pq", some SqlDialect.PostgresDialect⟩⟩
    rfl rfl rfl rfl rfl
    (by
      intro path hpath
      have hne : (path == "test.open") = false := by
        rw [beq_eq_false_iff_ne]
        exact hpath
      simp only [fileOfList, List.lookup, hne])
    rfl rfl
  exact ⟨c', hres, hiff.2 (Or.inr (Or.inr ⟨"invalid connection protocol", rfl⟩))⟩

/-! ## The resolver: overrides -/

/-- C15: the two overrides are independent and each touches only its own field.
Whenever resolution succeeds, `Driver.Import` is the value of the `import` field if
that field is present and the registry import for the driver name otherwise, and
`Driver.Dialect` is the dialect looked up from the `dialect` field if that field is
present and the registry dialect for the driver name otherwise. A configuration that
differs only in its `import` field resolves, when it does, to the same `Dialect`,
`Name` and `OpenStr`; one that differs only in its `dialect` field to the same
`Import`, `Name` and `OpenStr`. -/
theorem newDBConfDetails_overrides (x : Externals) (cfgFile migrationsDir env : String)
    (f : File) (drv openRaw : String) (c : DBConf)
    (hf : x.ReadFile cfgFile = .ok f)
    (hdrv : f.Get (env ++ ".driver") = .ok drv)
    (hopen : f.Get (env ++ ".open") = .ok openRaw)
    (h : newDBConfDetails x cfgFile migrationsDir env = .ok c) :
    (∀ i, f.Get (env ++ ".import") = .ok i → c.Driver.Import = i) ∧
      ((∃ e, f.Get (env ++ ".import") = .error e) →
        ∀ o, c.Driver.Import = (NewDBDriver drv o).Import) ∧
      (∀ dialect, f.Get (env ++ ".dialect") = .ok dialect →
        c.Driver.Dialect = x.DialectByName dialect) ∧
      ((∃ e, f.Get (env ++ ".dialect") = .error e) →
        ∀ o, c.Driver.Dialect = (NewDBDriver drv o).Dialect) ∧
      (∀ cfgFile' f' c', x.ReadFile cfgFile' = .ok f' →
        (∀ path, path ≠ env ++ ".import" → f'.Get path = f.Get path) →
        newDBConfDetails x cfgFile' migrationsDir env = .ok c' →
        c'.Driver.Dialect = c.Driver.Dialect ∧ c'.Driver.Name = c.Driver.Name ∧
          c'.Driver.OpenStr = c.Driver.OpenStr) ∧
      (∀ cfgFile' f' c', x.ReadFile cfgFile' = .ok f' →
        (∀ path, path ≠ env ++ ".dialect" → f'.Get path = f.Get path) →
        newDBConfDetails x cfgFile' migrationsDir env = .ok c' →
        c'.Driver.Import = c.Driver.Import ∧ c'.Driver.Name = c.Driver.Name ∧
          c'.Driver.OpenStr = c.Driver.OpenStr) := by
  obtain ⟨hc, _, _⟩ :=
    newDBConfDetails_ok_eq x cfgFile migrationsDir env f drv openRaw c hf hdrv hopen h
  subst hc
  refine ⟨?_, ?_, ?_, ?_, ?_, ?_⟩
  · intro i hi
    simp only [importAfterOverrides, hi]
  · rintro ⟨e, he⟩ o
    simp only [importAfterOverrides, he]
    exact (NewDBDriver_import_dialect drv "" o).1
  · intro dialect hdl
    simp only [dialectAfterOverrides, hdl]
  · rintro ⟨e, he⟩ o
    simp only [dialectAfterOverrides, he]
    exact (NewDBDriver_import_dialect drv "" o).2
  · intro cfgFile' f' c' hf' hsame h'
    have hdrv' : f'.Get (env ++ ".driver") = .ok drv := by
      rw [hsame _ (path_ne env ".driver" ".import" (by decide)), hdrv]
    have hopen' : f'.Get (env ++ ".open") = .ok openRaw := by
      rw [hsame _ (path_ne env ".open" ".import" (by decide)), hopen]
    have hdia : f'.Get (env ++ ".dialect") = f.Get (env ++ ".dialect") :=
      hsame _ (path_ne env ".dialect" ".import" (by decide))
    obtain ⟨hc', _, _⟩ :=
      newDBConfDetails_ok_eq x cfgFile' migrationsDir env f' drv openRaw c' hf' hdrv' hopen' h'
    subst hc'
    refine ⟨?_, rfl, rfl⟩
    simp only [dialectAfterOverrides, hdia]
  · intro cfgFile' f' c' hf' hsame h'
    have hdrv' : f'.Get (env ++ ".driver") = .ok drv := by
      rw [hsame _ (path_ne env ".driver" ".dialect" (by decide)), hdrv]
    have hopen' : f'.Get (env ++ ".open") = .ok openRaw := by
      rw [hsame _ (path_ne env ".open" ".dialect" (by decide)), hopen]
    have himp : f'.Get (env ++ ".import") = f.Get (env ++ ".import") :=
      hsame _ (path_ne env ".import" ".dialect" (by decide))
    obtain ⟨hc', _, _⟩ :=
      newDBConfDetails_ok_eq x cfgFile' migrationsDir env f' drv openRaw c' hf' hdrv' hopen' h'
    subst hc'
    refine ⟨?_, rfl, rfl⟩
    simp only [importAfterOverrides, himp]

/-- Witness for C15: a postgres section that overrides the import only keeps the
registry dialect. -/
theorem newDBConfDetails_overrides_witness :
    (DBConf.mk "db" "test" ⟨"postgres", "x", "example.com/pq",
        some SqlDialect.PostgresDialect⟩).Driver.Import = "example.com/pq" ∧
      (DBConf.mk "db" "test" ⟨"postgres", "x", "example.com/pq",
        some SqlDialect.PostgresDialect⟩).Driver.Dialect
        = (NewDBDriver "postgres" "").Dialect :=
  ⟨(newDBConfDetails_overrides
      (sampleExternals [("test.driver", "postgres"), ("test.open", "x"),
        ("test.import", "example.com/pq")])
      "db.yml" "db" "test"
      (fileOfList [("test.driver", "postgres"), ("test.open", "x"),
        ("test.import", "example.com/pq")])
      "postgres" "x"
      ⟨"db", "test", ⟨"postgres", "x", "example.com/pq", some SqlDialect.PostgresDialect⟩⟩
      rfl rfl rfl rfl).1 "example.com/pq" rfl,
    (newDBConfDetails_overrides
      (sampleExternals [("test.driver", "postgres"), ("test.open", "x"),
        ("test.import", "example.com/pq")])
      "db.yml" "db" "test"
      (fileOfList [("test.driver", "postgres"), ("test.open", "x"),
        ("test.import", "example.com/pq")])
      "postgres" "x"
      ⟨"db", "test", ⟨"postgres", "x", "example.com/pq", some SqlDialect.PostgresDialect⟩⟩
      rfl rfl rfl rfl).2.2.2.1 ⟨"yaml: test.dialect: not found", rfl⟩ ""⟩

/-- C16: an `import` field that is present with the empty string as value is applied
and reaches the validation, with no fallback to the registry import: for a readable
configuration with `driver` and `open` present, `newDBConfDetails` then fails with the
"Invalid DBConf" error, whatever the driver name ("postgres" and "mymysql" included).
With the `import` field absent, the driver that is returned or reported has the
registry import of the driver name. -/
theorem newDBConfDetails_empty_import (x : Externals) (cfgFile migrationsDir env : String)
    (f : File) (drv openRaw : String)
    (hf : x.ReadFile cfgFile = .ok f)
    (hdrv : f.Get (env ++ ".driver") = .ok drv)
    (hopen : f.Get (env ++ ".open") = .ok openRaw) :
    (f.Get (env ++ ".import") = .ok "" →
        (∃ d, newDBConfDetails x cfgFile migrationsDir env = .error (.invalidDBConf d) ∧
          d.Name = drv ∧ d.Import = "") ∧
        ∀ c, newDBConfDetails x cfgFile migrationsDir env ≠ .ok c) ∧
      ((∃ e, f.Get (env ++ ".import") = .error e) →
        (∀ c, newDBConfDetails x cfgFile migrationsDir env = .ok c →
          ∀ o, c.Driver.Import = (NewDBDriver drv o).Import) ∧
        (∀ d, newDBConfDetails x cfgFile migrationsDir env = .error (.invalidDBConf d) →
          ∀ o, d.Import = (NewDBDriver drv o).Import)) := by
  constructor
  · intro hi
    have hI : importAfterOverrides f env drv = "" := by
      simp only [importAfterOverrides, hi]
    have herr := newDBConfDetails_error_of_invalid x cfgFile migrationsDir env f drv openRaw
      hf hdrv hopen (Or.inl hI)
    refine ⟨⟨_, herr, rfl, hI⟩, ?_⟩
    intro c hc
    rw [herr] at hc
    cases hc
  · rintro ⟨e, he⟩
    have hI : ∀ o, importAfterOverrides f env drv = (NewDBDriver drv o).Import := by
      intro o
      simp only [importAfterOverrides, he]
      exact (NewDBDriver_import_dialect drv "" o).1
    rw [newDBConfDetails_eq x cfgFile migrationsDir env f drv openRaw hf hdrv hopen]
    constructor
    · intro c hc o
      split at hc
      · injection hc with hc
        rw [← hc]
        exact hI o
      · cases hc
    · intro d hd o
      split at hd
      · cases hd
      · injection hd with hd
        injection hd with hd
        rw [← hd]
        exact hI o

/-- Witness for C16: a postgres section whose `import` field is the empty string. -/
theorem newDBConfDetails_empty_import_witness :
    (∃ d, newDBConfDetails
          (sampleExternals [("test.driver", "postgres"), ("test.open", "x"),
            ("test.import", "")])
          "db.yml" "db" "test" = .error (.invalidDBConf d) ∧
        d.Name = "postgres" ∧ d.Import = "") ∧
      ∀ c, newDBConfDetails
          (sampleExternals [("test.driver", "postgres"), ("test.open", "x"),
            ("test.import", "")])
          "db.yml" "db" "test" ≠ .ok c :=
  (newDBConfDetails_empty_import
    (sampleExternals [("test.driver", "postgres"), ("test.open", "x"), ("test.import", "")])
    "db.yml" "db" "test"
    (fileOfList [("test.driver", "postgres"), ("test.open", "x"), ("test.import", "")])
    "postgres" "x" rfl rfl rfl).1 rfl

/-- C17: whether `newDBConfDetails` succeeds does not depend on the content of the
connection string. Two runs on readable configuration sources that agree on the
presence of the `driver` and `open` fields and on the presence and values of the
`driver`, `import` and `dialect` fields, and differ arbitrarily in the value of
`open`, in the process environment (the expansion), in the result of postgres URL
parsing and in `migrationsDir`, either both succeed or both fail, and on success both
return the same `Import` and `Dialect`. -/
theorem newDBConfDetails_outcome_independent (x x' : Externals)
    (cfgFile cfgFile' migrationsDir migrationsDir' env env' : String) (f f' : File)
    (hD : x'.DialectByName = x.DialectByName)
    (hf : x.ReadFile cfgFile = .ok f) (hf' : x'.ReadFile cfgFile' = .ok f')
    (hdrv : (f.Get (env ++ ".driver")).toOption = (f'.Get (env' ++ ".driver")).toOption)
    (hopen : (f.Get (env ++ ".open")).isOk = (f'.Get (env' ++ ".open")).isOk)
    (himp : (f.Get (env ++ ".import")).toOption = (f'.Get (env' ++ ".import")).toOption)
    (hdia : (f.Get (env ++ ".dialect")).toOption = (f'.Get (env' ++ ".dialect")).toOption) :
    ((∃ c, newDBConfDetails x cfgFile migrationsDir env = .ok c) ↔
        (∃ c', newDBConfDetails x' cfgFile' migrationsDir' env' = .ok c')) ∧
      ((∃ e, newDBConfDetails x cfgFile migrationsDir env = .error e) ↔
        (∃ e', newDBConfDetails x' cfgFile' migrationsDir' env' = .error e')) ∧
      ∀ c c', newDBConfDetails x cfgFile migrationsDir env = .ok c →
        newDBConfDetails x' cfgFile' migrationsDir' env' = .ok c' →
        c.Driver.Import = c'.Driver.Import ∧ c.Driver.Dialect = c'.Driver.Dialect := by
  have hm := newDBConfDetails_missing x cfgFile migrationsDir env f hf
  have hm' := newDBConfDetails_missing x' cfgFile' migrationsDir' env' f' hf'
  cases hd : f.Get (env ++ ".driver") with
  | error e =>
    cases hd' : f'.Get (env' ++ ".driver") with
    | ok drv' =>
      rw [hd, hd'] at hdrv
      cases hdrv
    | error e' =>
      have hr := hm.1 e hd
      have hr' := hm'.1 e' hd'
      rw [hr, hr']
      refine ⟨⟨?_, ?_⟩, ⟨fun _ => ⟨_, rfl⟩, fun _ => ⟨_, rfl⟩⟩, ?_⟩
      · rintro ⟨c, hc⟩
        cases hc
      · rintro ⟨c, hc⟩
        cases hc
      · intro c c' hc
        cases hc
  | ok drv =>
    cases hd' : f'.Get (env' ++ ".driver") with
    | error e' =>
      rw [hd, hd'] at hdrv
      cases hdrv
    | ok drv' =>
      have hdd : drv = drv' := by
        rw [hd, hd'] at hdrv
        injection hdrv
      subst hdd
      cases ho : f.Get (env ++ ".open") with
      | error e =>
        cases ho' : f'.Get (env' ++ ".open") with
        | ok o' =>
          rw [ho, ho'] at hopen
          cases hopen
        | error e' =>
          have hr := hm.2 drv e hd ho
          have hr' := hm'.2 drv e' hd' ho'
          rw [hr, hr']
          refine ⟨⟨?_, ?_⟩, ⟨fun _ => ⟨_, rfl⟩, fun _ => ⟨_, rfl⟩⟩, ?_⟩
          · rintro ⟨c, hc⟩
            cases hc
          · rintro ⟨c, hc⟩
            cases hc
          · intro c c' hc
            cases hc
      | ok o =>
        cases ho' : f'.Get (env' ++ ".open") with
        | error e' =>
          rw [ho, ho'] at hopen
          cases hopen
        | ok o' =>
          have hI := importAfterOverrides_congr f f' env env' drv himp
          have hDl := dialectAfterOverrides_congr x x' f f' env env' drv hD hdia
          rw [newDBConfDetails_eq x cfgFile migrationsDir env f drv o hf hd ho,
            newDBConfDetails_eq x' cfgFile' migrationsDir' env' f' drv o' hf' hd' ho',
            ← hI, ← hDl]
          by_cases hv : importAfterOverrides f env drv ≠ "" ∧
              dialectAfterOverrides x f env drv ≠ none
          · have hv1 : (DBDriver.mk drv (resolvedOpen x drv o) (importAfterOverrides f env drv)
                (dialectAfterOverrides x f env drv)).IsValid = true := (isValid_iff _).2 hv
            have hv2 : (DBDriver.mk drv (resolvedOpen x' drv o') (importAfterOverrides f env drv)
                (dialectAfterOverrides x f env drv)).IsValid = true := (isValid_iff _).2 hv
            rw [if_pos hv1, if_pos hv2]
            refine ⟨⟨fun _ => ⟨_, rfl⟩, fun _ => ⟨_, rfl⟩⟩, ⟨?_, ?_⟩, ?_⟩
            · rintro ⟨e, he⟩
              cases he
            · rintro ⟨e, he⟩
              cases he
            · intro c c' hc hc'
              injection hc with hc
              injection hc' with hc'
              subst hc
              subst hc'
              exact ⟨rfl, rfl⟩
          · have hv1 : ¬ (DBDriver.mk drv (resolvedOpen x drv o) (importAfterOverrides f env drv)
                (dialectAfterOverrides x f env drv)).IsValid = true :=
              fun hh => hv ((isValid_iff _).1 hh)
            have hv2 : ¬ (DBDriver.mk drv (resolvedOpen x' drv o') (importAfterOverrides f env drv)
                (dialectAfterOverrides x f env drv)).IsValid = true :=
              fun hh => hv ((isValid_iff _).1 hh)
            rw [if_neg hv1, if_neg hv2]
            refine ⟨⟨?_, ?_⟩, ⟨fun _ => ⟨_, rfl⟩, fun _ => ⟨_, rfl⟩⟩, ?_⟩
            · rintro ⟨c, hc⟩
              cases hc
            · rintro ⟨c, hc⟩
              cases hc
            · intro c c' hc
              cases hc

/-- Witness for C17: two postgres sections, in different environments, that differ
in their `open` value, in the parser's verdict on it and in the migrations directory,
both resolve, to the same import and dialect. -/
theorem newDBConfDetails_outcome_independent_witness :
    ((∃ c, newDBConfDetails
          (sampleExternalsWith [("test.driver", "postgres"), ("test.open", "host=$DBHOST")]
            sampleGetenv [])
          "db.yml" "db" "test" = .ok c) ↔
        (∃ c', newDBConfDetails
          (sampleExternalsWith
            [("dev.driver", "postgres"), ("dev.open", "postgres://u:p@localhost/db")]
            (fun _ => "")
            [("postgres://u:p@localhost/db", "dbname=db host=localhost password=p user=u")])
          "dev.yml" "migrations" "dev" = .ok c')) :=
  (newDBConfDetails_outcome_independent
    (sampleExternalsWith [("test.driver", "postgres"), ("test.open", "host=$DBHOST")]
      sampleGetenv [])
    (sampleExternalsWith
      [("dev.driver", "postgres"), ("dev.open", "postgres://u:p@localhost/db")]
      (fun _ => "")
      [("postgres://u:p@localhost/db", "dbname=db host=localhost password=p user=u")])
    "db.yml" "dev.yml" "db" "migrations" "test" "dev"
    (fileOfList [("test.driver", "postgres"), ("test.open", "host=$DBHOST")])
    (fileOfList [("dev.driver", "postgres"), ("dev.open", "postgres://u:p@localhost/db")])
    rfl rfl rfl rfl rfl rfl rfl).1

end Goose
